import Mathlib

/-!
# example_secrets.h

A shallow embedding of the configuration header `example_secrets.h` of the
laser-cutter monitor firmware.  The header has no control flow: it is a flat
sequence of `#define` directives and global object definitions.  Every
definition of the header becomes a Lean constant of the same name, and the
header as a whole becomes the list `example_secrets` of its declarations in
source order, so that properties of its values, of its set of names and of
its qualifiers can be stated and checked.
-/

namespace ExampleSecrets

/-! ## Data model -/

/-- The arguments of a four-argument `IPAddress(a, b, c, d)` constructor call,
kept exactly as they are written in the source (before any narrowing to
`uint8_t`), first octet first. -/
structure IPAddress where
  first : Nat
  second : Nat
  third : Nat
  fourth : Nat
  deriving DecidableEq, Repr

/-- The components of an address, first octet first. -/
def IPAddress.octets (a : IPAddress) : List Nat :=
  [a.first, a.second, a.third, a.fourth]

/-- The replacement text of an object-like `#define`: a string literal or an
integer literal. -/
inductive Replacement where
  | str (s : String)
  | int (n : Int)
  deriving DecidableEq, Repr

/-- The declared type of a global object of the header, with its qualifiers.
`ipAddress objConst` is `IPAddress`, preceded by `const` when `objConst`;
`charPtr pointeeConst ptrConst` is `char *`, with `const` before `char` when
`pointeeConst` and `const` after the `*` when `ptrConst`. -/
inductive CType where
  | ipAddress (objConst : Bool)
  | charPtr (pointeeConst : Bool) (ptrConst : Bool)
  deriving DecidableEq, Repr

/-- The initialiser of a global object. -/
inductive Init where
  | addr (a : IPAddress)
  | str (s : String)
  deriving DecidableEq, Repr

/-- One top-level declaration of the header. -/
inductive Decl where
  | define (name : String) (body : Replacement)
  | object (name : String) (ty : CType) (init : Init)
  deriving DecidableEq, Repr

/-- The name a declaration introduces. -/
def Decl.name : Decl → String
  | .define n _ => n
  | .object n _ _ => n

/-! ## The constants of the header, in source order -/

/-- Source line 1: `#define WLAN_SSID "XXX"`. -/
def WLAN_SSID : String := "XXX"

/-- Source line 2: `#define WLAN_PASS "XXX"`. -/
def WLAN_PASS : String := "XXX"

/-- Source line 4: `IPAddress ip(192, 168, 0, 10);`. -/
def ip : IPAddress := ⟨192, 168, 0, 10⟩

/-- Source line 5: `IPAddress gateway(192, 168, 0, 1);`. -/
def gateway : IPAddress := ⟨192, 168, 0, 1⟩

/-- Source line 6: `IPAddress subnet(255, 255, 255, 0);`. -/
def subnet : IPAddress := ⟨255, 255, 255, 0⟩

/-- Source line 7: `IPAddress dns(8, 8, 8, 8);`. -/
def dns : IPAddress := ⟨8, 8, 8, 8⟩

/-- Source line 9: `const char *OTAName = "ESP8266mon";`. -/
def OTAName : String := "ESP8266mon"

/-- Source line 10: `const char *OTAPassword = "XXX";`. -/
def OTAPassword : String := "XXX"

/-- Source line 11: `const char* mdnsName = "esp8266mon";`. -/
def mdnsName : String := "esp8266mon"

/-- Source line 13: `#define AIO_SERVER "io.adafruit.com"`. -/
def AIO_SERVER : String := "io.adafruit.com"

/-- Source line 14: `#define AIO_SERVERPORT 8883`. -/
def AIO_SERVERPORT : Int := 8883

/-- Source line 15: `#define AIO_USERNAME "XXX"`. -/
def AIO_USERNAME : String := "XXX"

/-- Source line 16: `#define AIO_KEY "XXX"`. -/
def AIO_KEY : String := "XXX"

/-- Source line 19: `#define BOTtoken "XXX:YYY"`. -/
def BOTtoken : String := "XXX:YYY"

/-- The whole header: its fourteen declarations in source order, each with the
qualifiers written in the source. -/
def example_secrets : List Decl :=
  [ .define "WLAN_SSID" (.str WLAN_SSID),
    .define "WLAN_PASS" (.str WLAN_PASS),
    .object "ip" (.ipAddress false) (.addr ip),
    .object "gateway" (.ipAddress false) (.addr gateway),
    .object "subnet" (.ipAddress false) (.addr subnet),
    .object "dns" (.ipAddress false) (.addr dns),
    .object "OTAName" (.charPtr true false) (.str OTAName),
    .object "OTAPassword" (.charPtr true false) (.str OTAPassword),
    .object "mdnsName" (.charPtr true false) (.str mdnsName),
    .define "AIO_SERVER" (.str AIO_SERVER),
    .define "AIO_SERVERPORT" (.int AIO_SERVERPORT),
    .define "AIO_USERNAME" (.str AIO_USERNAME),
    .define "AIO_KEY" (.str AIO_KEY),
    .define "BOTtoken" (.str BOTtoken) ]

/-! ## Observations on a header -/

/-- The names a header defines, in source order, with repetitions. -/
def definedNames (h : List Decl) : List String :=
  h.map Decl.name

/-- The replacement text of the first `#define` of a name, if any. -/
def lookupDefine (h : List Decl) (n : String) : Option Replacement :=
  match h with
  | [] => none
  | .define m body :: rest => if m = n then some body else lookupDefine rest n
  | .object _ _ _ :: rest => lookupDefine rest n

/-- The declared type of the first global object of a name, if any. -/
def lookupType (h : List Decl) (n : String) : Option CType :=
  match h with
  | [] => none
  | .object m ty _ :: rest => if m = n then some ty else lookupType rest n
  | .define _ _ :: rest => lookupType rest n

/-- The initialiser of the first global object of a name, if any. -/
def lookupInit (h : List Decl) (n : String) : Option Init :=
  match h with
  | [] => none
  | .object m _ i :: rest => if m = n then some i else lookupInit rest n
  | .define _ _ :: rest => lookupInit rest n

/-- Whether the object itself is const-qualified, so that it cannot be
assigned after its definition: `const IPAddress`, or `char * const`. -/
def CType.objectIsConst : CType → Bool
  | .ipAddress objConst => objConst
  | .charPtr _ ptrConst => ptrConst

/-- Whether the data a pointer object points to is const-qualified. -/
def CType.pointeeIsConst : CType → Bool
  | .ipAddress _ => false
  | .charPtr pointeeConst _ => pointeeConst

/-- The global objects of a header: the names introduced by an object
definition rather than by a `#define`. -/
def globalObjects (h : List Decl) : List String :=
  h.filterMap fun d =>
    match d with
    | .object n _ _ => some n
    | .define _ _ => none

/-- The octet at an index, as read by `operator[]`. -/
def IPAddress.octet (a : IPAddress) (i : Fin 4) : Nat :=
  match i with
  | 0 => a.first
  | 1 => a.second
  | 2 => a.third
  | 3 => a.fourth

/-- An address has exactly four components, each in the range 0..255. -/
def IPAddress.isFourOctet (a : IPAddress) : Bool :=
  a.octets.length == 4 && a.octets.all fun o => decide (0 ≤ o ∧ o ≤ 255)

/-- Whether a named global object of a header is const-qualified as an object.
A name that is not a global object of the header is not. -/
def objectConstQualified (h : List Decl) (n : String) : Bool :=
  match lookupType h n with
  | some ty => ty.objectIsConst
  | none => false

/-- Whether a named global object of a header points to const-qualified
data. -/
def pointeeConstQualified (h : List Decl) (n : String) : Bool :=
  match lookupType h n with
  | some ty => ty.pointeeIsConst
  | none => false

/-- A TCP port number is valid when it lies in 1..65535. -/
def isValidPort (p : Int) : Prop :=
  1 ≤ p ∧ p ≤ 65535

/-- The four network constants of the header, in source order. -/
def networkConstants : List IPAddress :=
  [ip, gateway, subnet, dns]

/-- The credential strings of the header, in source order: WiFi SSID and
password, OTA password, broker user name and key, bot token. -/
def credentials : List String :=
  [WLAN_SSID, WLAN_PASS, OTAPassword, AIO_USERNAME, AIO_KEY, BOTtoken]

/-- A character of the placeholder alphabet. -/
def isPlaceholderChar (c : Char) : Bool :=
  c == 'X' || c == 'Y' || c == ':'

/-- The symbols of the data model table of the specification, row by row. -/
def dataModelSymbols : List String :=
  [ "WLAN_SSID", "WLAN_PASS",
    "ip", "gateway", "subnet", "dns",
    "OTAName", "OTAPassword",
    "mdnsName",
    "AIO_SERVER", "AIO_SERVERPORT", "AIO_USERNAME", "AIO_KEY",
    "BOTtoken" ]

/-- The bits of an octet of an address that the mask leaves to the host. -/
def hostBits (a mask : IPAddress) (i : Fin 4) : Nat :=
  a.octet i &&& (mask.octet i ^^^ 255)

/-- Two addresses lie in the same network under a mask. -/
def sameNetwork (a b mask : IPAddress) : Prop :=
  ∀ i : Fin 4, a.octet i &&& mask.octet i = b.octet i &&& mask.octet i

instance (a b mask : IPAddress) : Decidable (sameNetwork a b mask) :=
  inferInstanceAs (Decidable (∀ i : Fin 4, a.octet i &&& mask.octet i = b.octet i &&& mask.octet i))

/-- An address is the network address under a mask: its host bits are all
zero. -/
def isNetworkAddress (a mask : IPAddress) : Prop :=
  ∀ i : Fin 4, hostBits a mask i = 0

instance (a mask : IPAddress) : Decidable (isNetworkAddress a mask) :=
  inferInstanceAs (Decidable (∀ i : Fin 4, hostBits a mask i = 0))

/-- An address is the broadcast address under a mask: its host bits are all
one. -/
def isBroadcastAddress (a mask : IPAddress) : Prop :=
  ∀ i : Fin 4, hostBits a mask i = mask.octet i ^^^ 255

instance (a mask : IPAddress) : Decidable (isBroadcastAddress a mask) :=
  inferInstanceAs (Decidable (∀ i : Fin 4, hostBits a mask i = mask.octet i ^^^ 255))

/-- An address read as a 32-bit big-endian integer, first octet most
significant. -/
def IPAddress.toUInt32 (a : IPAddress) : Nat :=
  ((a.first * 256 + a.second) * 256 + a.third) * 256 + a.fourth

/-- The binary form of a 32-bit integer, most significant bit first. -/
def bits32 (n : Nat) : List Bool :=
  (List.range 32).map fun k => n.testBit (31 - k)

/-- The number of leading one-bits of a 32-bit integer. -/
def maskLength (n : Nat) : Nat :=
  ((bits32 n).takeWhile id).length

/-- A 32-bit integer is a contiguous netmask: after its leading run of
one-bits only zero-bits follow. -/
def isContiguousMask (n : Nat) : Bool :=
  n < 2 ^ 32 && ((bits32 n).dropWhile id).all fun b => !b

/-- The number of usable host addresses of a network whose mask has `len`
leading one-bits: all host values but the network and broadcast ones. -/
def usableHosts (len : Nat) : Nat :=
  2 ^ (32 - len) - 2

/-- ASCII lower-casing of one character: `A`..`Z` go to `a`..`z`, every other
character stays. -/
def asciiLower (c : Char) : Char :=
  if 65 ≤ c.toNat ∧ c.toNat ≤ 90 then Char.ofNat (c.toNat + 32) else c

/-- ASCII lower-casing of a string, character by character. -/
def asciiLowerString (s : String) : String :=
  String.mk (s.toList.map asciiLower)

/-- A lowercase ASCII letter or an ASCII digit. -/
def isLowerOrDigit (c : Char) : Bool :=
  (97 ≤ c.toNat && c.toNat ≤ 122) || (48 ≤ c.toNat && c.toNat ≤ 57)

/-! ## Theorems -/

/-- C1: each of the four network constants `ip`, `gateway`, `subnet` and `dns`
is a 4-octet address, built from exactly four components that all lie in
0..255, with the values 192.168.0.10, 192.168.0.1, 255.255.255.0 and
8.8.8.8. -/
theorem C1_network_constants_are_four_octet_addresses :
    lookupInit example_secrets "ip" = some (.addr ip) ∧
    lookupInit example_secrets "gateway" = some (.addr gateway) ∧
    lookupInit example_secrets "subnet" = some (.addr subnet) ∧
    lookupInit example_secrets "dns" = some (.addr dns) ∧
    ip.octets = [192, 168, 0, 10] ∧
    gateway.octets = [192, 168, 0, 1] ∧
    subnet.octets = [255, 255, 255, 0] ∧
    dns.octets = [8, 8, 8, 8] ∧
    ip.isFourOctet = true ∧ gateway.isFourOctet = true ∧
    subnet.isFourOctet = true ∧ dns.isFourOctet = true := by
  decide

/-- C2: the broker parameters have the stated types and values: `AIO_SERVER`
is the string "io.adafruit.com", `AIO_USERNAME` and `AIO_KEY` are strings,
and `AIO_SERVERPORT` is the integer 8883, a valid TCP port (1..65535). -/
theorem C2_broker_parameters_types_and_values :
    lookupDefine example_secrets "AIO_SERVER" = some (.str "io.adafruit.com") ∧
    (∃ s : String, lookupDefine example_secrets "AIO_USERNAME" = some (.str s)) ∧
    (∃ s : String, lookupDefine example_secrets "AIO_KEY" = some (.str s)) ∧
    lookupDefine example_secrets "AIO_SERVERPORT" = some (.int 8883) ∧
    AIO_SERVER = "io.adafruit.com" ∧
    AIO_SERVERPORT = 8883 ∧
    isValidPort AIO_SERVERPORT := by
  refine ⟨by decide, ⟨"XXX", by decide⟩, ⟨"XXX", by decide⟩, by decide, by decide,
    by decide, ?_⟩
  unfold isValidPort
  decide

/-- C3: every credential of the header is a placeholder: `WLAN_SSID`,
`WLAN_PASS`, `OTAPassword`, `AIO_USERNAME` and `AIO_KEY` equal "XXX",
`BOTtoken` equals "XXX:YYY", and every credential string is made only of the
characters X, Y and colon. -/
theorem C3_credentials_are_placeholders :
    WLAN_SSID = "XXX" ∧ WLAN_PASS = "XXX" ∧ OTAPassword = "XXX" ∧
    AIO_USERNAME = "XXX" ∧ AIO_KEY = "XXX" ∧ BOTtoken = "XXX:YYY" ∧
    lookupDefine example_secrets "WLAN_SSID" = some (.str WLAN_SSID) ∧
    lookupDefine example_secrets "WLAN_PASS" = some (.str WLAN_PASS) ∧
    lookupInit example_secrets "OTAPassword" = some (.str OTAPassword) ∧
    lookupDefine example_secrets "AIO_USERNAME" = some (.str AIO_USERNAME) ∧
    lookupDefine example_secrets "AIO_KEY" = some (.str AIO_KEY) ∧
    lookupDefine example_secrets "BOTtoken" = some (.str BOTtoken) ∧
    (credentials.all fun s => s.toList.all isPlaceholderChar) = true := by
  decide

/-- C4: the header defines exactly the symbols of the data model, each once:
a name is defined by the header if and only if it is one of the fourteen
listed symbols, and no name is defined twice. -/
theorem C4_header_defines_exactly_the_listed_symbols :
    (∀ n : String, n ∈ definedNames example_secrets ↔ n ∈ dataModelSymbols) ∧
    (definedNames example_secrets).Nodup ∧
    (definedNames example_secrets).length = 14 := by
  have h : definedNames example_secrets = dataModelSymbols := by decide
  refine ⟨fun n => by rw [h], by decide, by decide⟩

/-- C5, as stated, fails: the global objects of the header are not
const-qualified as objects.  `ip` is a global object of the header declared
with the plain type `IPAddress`, and `OTAName` is declared `const char *`, a
non-const pointer; so not every one of the seven objects is
const-qualified. -/
theorem C5_counterexample_ip_not_const :
    "ip" ∈ globalObjects example_secrets ∧
    lookupType example_secrets "ip" = some (.ipAddress false) ∧
    objectConstQualified example_secrets "ip" = false ∧
    lookupType example_secrets "OTAName" = some (.charPtr true false) ∧
    objectConstQualified example_secrets "OTAName" = false ∧
    ¬ ((["ip", "gateway", "subnet", "dns", "OTAName", "OTAPassword", "mdnsName"].all
        fun n => objectConstQualified example_secrets n) = true) := by
  decide

/-- C5, amended: the global objects of the header are exactly `ip`, `gateway`,
`subnet`, `dns`, `OTAName`, `OTAPassword` and `mdnsName`; each is defined
exactly once; the four addresses have the plain type `IPAddress` and the three
strings the type `const char *`; so none of the seven is const-qualified as an
object, and for the three strings the data pointed to is const-qualified. -/
theorem C5_objects_defined_once_only_pointee_const :
    globalObjects example_secrets =
      ["ip", "gateway", "subnet", "dns", "OTAName", "OTAPassword", "mdnsName"] ∧
    ((globalObjects example_secrets).all fun n =>
      (definedNames example_secrets).count n == 1) = true ∧
    (["ip", "gateway", "subnet", "dns"].all fun n =>
      lookupType example_secrets n == some (.ipAddress false)) = true ∧
    (["OTAName", "OTAPassword", "mdnsName"].all fun n =>
      lookupType example_secrets n == some (.charPtr true false)) = true ∧
    ((globalObjects example_secrets).all fun n =>
      !objectConstQualified example_secrets n) = true ∧
    (["OTAName", "OTAPassword", "mdnsName"].all fun n =>
      pointeeConstQualified example_secrets n) = true := by
  decide

/-- C7: the static network configuration is self-consistent: `ip` and
`gateway` lie in the same network under `subnet` (octet by octet, the address
ANDed with the mask agrees), `ip` differs from `gateway`, and `ip` is neither
the network address (host bits all zero) nor the broadcast address (host bits
all one) of that network. -/
theorem C7_static_network_configuration_consistent :
    sameNetwork ip gateway subnet ∧
    (∀ i : Fin 4, ip.octet i &&& subnet.octet i = gateway.octet i &&& subnet.octet i) ∧
    ip ≠ gateway ∧
    ¬ isNetworkAddress ip subnet ∧
    ¬ isBroadcastAddress ip subnet := by
  decide

/-- C8: `subnet` is a valid contiguous netmask: read as a 32-bit big-endian
integer its binary form is 24 one-bits followed by 8 zero-bits, so its mask
length is 24 and the network holds 254 usable host addresses. -/
theorem C8_subnet_is_contiguous_mask_of_length_24 :
    subnet.toUInt32 < 2 ^ 32 ∧
    bits32 subnet.toUInt32 = List.replicate 24 true ++ List.replicate 8 false ∧
    isContiguousMask subnet.toUInt32 = true ∧
    maskLength subnet.toUInt32 = 24 ∧
    usableHosts (maskLength subnet.toUInt32) = 254 := by
  decide

/-- C9: `mdnsName` is a valid DNS host label and the ASCII-lowercase form of
`OTAName`: it is non-empty, at most 63 characters long, made only of lowercase
ASCII letters and digits, and equal to `OTAName` with every upper-case ASCII
letter mapped to lower case ("ESP8266mon" gives "esp8266mon"). -/
theorem C9_mdnsName_is_lowercase_label_of_OTAName :
    0 < mdnsName.length ∧
    mdnsName.length ≤ 63 ∧
    mdnsName.toList.all isLowerOrDigit = true ∧
    mdnsName = asciiLowerString OTAName ∧
    asciiLowerString "ESP8266mon" = "esp8266mon" ∧
    lookupInit example_secrets "mdnsName" = some (.str mdnsName) ∧
    lookupInit example_secrets "OTAName" = some (.str OTAName) := by
  decide

end ExampleSecrets
